import Mathlib

/-!
Verification of the swerve module controller (`swerve/swerve_module.py`).

The Python class `SwerveModule` is shallowly embedded: the mutable object
state is the structure `SwerveModule`, each method becomes a state-passing
function, sensor reads (`getSelectedSensorPosition`, `get`,
`getAnalogInRaw`, `getClosedLoopError`) are explicit inputs, and the
commands issued to the Talon motor controllers are explicit outputs.
Python float arithmetic is modelled with real numbers, and the WPILib
preference store is modelled as a typed key-value map.
-/

open Real

noncomputable section

/-- Module-level flag `_apply_range_hack` (swerve_module.py line 10):
"Set to true to add safety margin to steer ranges".  The source sets it
to `False`. -/
def apply_range_hack : Bool := false

/-- State of a `SwerveModule` object: all fields assigned in `__init__`
and `load_config_values`.  The two Talon handles are collaborators; the
commands sent to them are modelled as explicit outputs of the methods. -/
structure SwerveModule where
  name : String
  steer_target : ℝ
  steer_target_native : ℝ
  drive_temp_flipped : Bool
  steer_offset : ℝ
  steer_min : ℝ
  steer_max : ℝ
  steer_range : ℝ
  drive_reversed : Bool
  steer_reversed : Bool

/-- The preference-store collaborator (`wpilib.Preferences`): a typed
key-value store of floats and booleans. -/
structure Store where
  floats : String → Option ℝ
  bools : String → Option Bool

/-- `preferences.getFloat(key, default)`. -/
def getFloat (s : Store) (k : String) (d : ℝ) : ℝ := (s.floats k).getD d

/-- `preferences.getBoolean(key, default)`. -/
def getBoolean (s : Store) (k : String) (d : Bool) : Bool := (s.bools k).getD d

/-- `preferences.putFloat(key, value)`. -/
def putFloat (s : Store) (k : String) (v : ℝ) : Store :=
  { s with floats := fun q => if q = k then some v else s.floats q }

/-- `preferences.putBoolean(key, value)`. -/
def putBoolean (s : Store) (k : String) (v : Bool) : Store :=
  { s with bools := fun q => if q = k then some v else s.bools q }

/-- Python `math.trunc(x)` and `int(x)` on a float: truncation toward
zero. -/
def truncR (x : ℝ) : ℤ := if 0 ≤ x then ⌊x⌋ else ⌈x⌉

/-- `load_config_values` (lines 56-90), with the module-level
`_apply_range_hack` flag made an explicit parameter.  The
`selectProfileSlot` call is a collaborator command that does not touch
this state.  In the range-hack branch, `int(actual_steer_range * 0.01)`
is `truncR`, and the final `steer_range` is
`int(steer_max - steer_min)` after both bounds were shrunk inward. -/
def load_config_values_hack (hack : Bool) (m : SwerveModule) (s : Store) :
    SwerveModule :=
  let steer_offset0 := getFloat s (m.name ++ "-offset") 0
  if hack then
    let steer_min0 := getFloat s (m.name ++ "-min") 0
    let steer_max0 := getFloat s (m.name ++ "-max") 1024
    let actual_steer_range := truncR (steer_max0 - steer_min0)
    let margin := truncR ((actual_steer_range : ℝ) * 0.01)
    let steer_min1 := steer_min0 + (margin : ℝ)
    let steer_max1 := steer_max0 - (margin : ℝ)
    { m with
      steer_offset := steer_offset0 - steer_min1
      steer_min := steer_min1
      steer_max := steer_max1
      steer_range := (truncR (steer_max1 - steer_min1) : ℝ)
      drive_reversed := getBoolean s (m.name ++ "-reversed") false
      steer_reversed := getBoolean s (m.name ++ "-steer-reversed") false }
  else
    { m with
      steer_offset := steer_offset0
      steer_min := 0
      steer_max := 1024
      steer_range := 1024
      drive_reversed := getBoolean s (m.name ++ "-reversed") false
      steer_reversed := getBoolean s (m.name ++ "-steer-reversed") false }

/-- `load_config_values` as compiled: the flag is `False`. -/
def load_config_values (m : SwerveModule) (s : Store) : SwerveModule :=
  load_config_values_hack apply_range_hack m s

/-- `save_config_values` (lines 92-104), with the `_apply_range_hack`
flag made an explicit parameter.  The method assigns no attribute of
`self`, so the module state is returned unchanged next to the updated
store. -/
def save_config_values_hack (hack : Bool) (m : SwerveModule) (s : Store) :
    SwerveModule × Store :=
  let s1 := putBoolean (putFloat s (m.name ++ "-offset") m.steer_offset)
      (m.name ++ "-reversed") m.drive_reversed
  if hack then
    (m, putFloat (putFloat s1 (m.name ++ "-min") m.steer_min)
        (m.name ++ "-max") m.steer_max)
  else
    (m, s1)

/-- `save_config_values` as compiled: the flag is `False`. -/
def save_config_values (m : SwerveModule) (s : Store) : SwerveModule × Store :=
  save_config_values_hack apply_range_hack m s

/-- `get_steer_angle` (lines 106-117): `raw` is the current
`getSelectedSensorPosition()` reading. -/
def get_steer_angle (m : SwerveModule) (raw : ℝ) : ℝ :=
  ((raw - m.steer_offset) / m.steer_range) * 2 * π

/-- The angle-unwrapping block of `set_steer_angle` (lines 140-144):
`c` is `current_angle`, `a` is `adjusted_target` on entry. -/
def unwrapTarget (c a : ℝ) : ℝ :=
  if |a - c| - π > 0.0005 then
    (if a > c then a - 2 * π else a + 2 * π)
  else a

/-- The shortest-path block of `set_steer_angle` (lines 147-154):
returns the new `adjusted_target` and `should_reverse_drive`. -/
def flipTarget (c a : ℝ) : ℝ × Bool :=
  if |a - c| - π / 2 > 0.0005 then
    ((if a > c then a - π else a + π), true)
  else (a, false)

/-- `set_steer_angle` (lines 119-162): `raw` is the
`getSelectedSensorPosition()` reading used both for `n_rotations` and
inside `get_steer_angle`.  Returns the new state together with the
native-unit position setpoint sent to the steer Talon (line 160). -/
def set_steer_angle (m : SwerveModule) (raw : ℝ) (angle_radians : ℝ) :
    SwerveModule × ℝ :=
  let n_rotations := truncR ((raw - m.steer_offset) / m.steer_range)
  let current_angle := get_steer_angle m raw
  let adjusted_target :=
    unwrapTarget current_angle (angle_radians + (n_rotations : ℝ) * 2 * π)
  let fr := flipTarget current_angle adjusted_target
  ({ m with steer_target := fr.1, drive_temp_flipped := fr.2 },
    fr.1 * 512 / π + m.steer_offset)

/-- `set_drive_speed` (lines 164-180): assigns no attribute of `self`;
returns the unchanged state and the percent-output value sent to the
drive Talon. -/
def set_drive_speed (m : SwerveModule) (percent_speed : ℝ) :
    SwerveModule × ℝ :=
  let p1 := if m.drive_reversed then percent_speed * (-1) else percent_speed
  let p2 := if m.drive_temp_flipped then p1 * (-1) else p1
  (m, p2)

/-- `update_smart_dashboard` (lines 196-219): `talon_get`,
`analog_raw` and `closed_loop_error` are the three sensor reads; the
output is the list of (label, value) pairs pushed to the dashboard. -/
def update_smart_dashboard (m : SwerveModule)
    (talon_get analog_raw closed_loop_error : ℝ) :
    SwerveModule × List (String × ℝ) :=
  (m, [(m.name ++ " Position", (talon_get - m.steer_offset) * 180 / 512),
       (m.name ++ " ADC", analog_raw),
       (m.name ++ " Target", m.steer_target * 180 / π),
       (m.name ++ " Steer Error", closed_loop_error)])

/-- `__init__` (lines 14-54): after binding the Talon handles it zeroes
the transient state and immediately calls `load_config_values`.  The
calibration fields have no value before that call; they are given
placeholder zeros here and are all overwritten by the load. -/
def mkSwerveModule (name : String) (s : Store) : SwerveModule :=
  load_config_values
    { name := name
      steer_target := 0
      steer_target_native := 0
      drive_temp_flipped := false
      steer_offset := 0
      steer_min := 0
      steer_max := 0
      steer_range := 0
      drive_reversed := false
      steer_reversed := false } s

/-- A concrete module in the nominal calibration: offset 0, range 1024. -/
def M0 : SwerveModule :=
  { name := "fl"
    steer_target := 0
    steer_target_native := 0
    drive_temp_flipped := false
    steer_offset := 0
    steer_min := 0
    steer_max := 1024
    steer_range := 1024
    drive_reversed := false
    steer_reversed := false }

/-- A concrete module with both drive-reversal flags set. -/
def M1 : SwerveModule :=
  { name := "fr"
    steer_target := 0
    steer_target_native := 0
    drive_temp_flipped := true
    steer_offset := 0
    steer_min := 0
    steer_max := 1024
    steer_range := 1024
    drive_reversed := true
    steer_reversed := false }

/-- An empty preference store. -/
def emptyStore : Store := ⟨fun _ => none, fun _ => none⟩

end

/-! ### Basic unfolding lemmas -/

theorem set_steer_angle_target (m : SwerveModule) (raw θ : ℝ) :
    (set_steer_angle m raw θ).1.steer_target =
      (flipTarget (get_steer_angle m raw)
        (unwrapTarget (get_steer_angle m raw)
          (θ + (truncR ((raw - m.steer_offset) / m.steer_range) : ℝ) * 2 * π))).1 :=
  rfl

theorem set_steer_angle_flipped (m : SwerveModule) (raw θ : ℝ) :
    (set_steer_angle m raw θ).1.drive_temp_flipped =
      (flipTarget (get_steer_angle m raw)
        (unwrapTarget (get_steer_angle m raw)
          (θ + (truncR ((raw - m.steer_offset) / m.steer_range) : ℝ) * 2 * π))).2 :=
  rfl

theorem set_steer_angle_native (m : SwerveModule) (raw θ : ℝ) :
    (set_steer_angle m raw θ).2 =
      (set_steer_angle m raw θ).1.steer_target * 512 / π + m.steer_offset :=
  rfl

theorem unwrapTarget_of_not_far (c a : ℝ) (h : ¬ |a - c| - π > 0.0005) :
    unwrapTarget c a = a := if_neg h

theorem unwrapTarget_of_far_gt (c a : ℝ) (h : |a - c| - π > 0.0005)
    (hac : a > c) : unwrapTarget c a = a - 2 * π := by
  unfold unwrapTarget
  rw [if_pos h, if_pos hac]

theorem unwrapTarget_of_far_le (c a : ℝ) (h : |a - c| - π > 0.0005)
    (hac : ¬ a > c) : unwrapTarget c a = a + 2 * π := by
  unfold unwrapTarget
  rw [if_pos h, if_neg hac]

theorem flipTarget_of_near (c a : ℝ) (h : ¬ |a - c| - π / 2 > 0.0005) :
    flipTarget c a = (a, false) := if_neg h

theorem flipTarget_of_far_gt (c a : ℝ) (h : |a - c| - π / 2 > 0.0005)
    (hac : a > c) : flipTarget c a = (a - π, true) := by
  unfold flipTarget
  rw [if_pos h, if_pos hac]

theorem flipTarget_of_far_le (c a : ℝ) (h : |a - c| - π / 2 > 0.0005)
    (hac : ¬ a > c) : flipTarget c a = (a + π, true) := by
  unfold flipTarget
  rw [if_pos h, if_neg hac]

/-! ### Claim theorems: the simple operations -/

/-- C6: `load_config_values` is idempotent — loading twice with the
persisted values unchanged leaves the module in exactly the same state
as loading once (the loaded fields depend only on the store and on
`name`, which the load preserves). -/
theorem C6_load_idempotent : ∀ (m : SwerveModule) (s : Store),
    load_config_values (load_config_values m s) s = load_config_values m s :=
  fun _ _ => rfl

/-- C7: `get_steer_angle` returns `((raw - steer_offset) / steer_range) * 2π`
with real-valued division and no normalization: with the nominal
calibration a raw reading of 0 yields exactly 0, and the result can
exceed 2π (raw 2048 yields 4π). -/
theorem C7_get_steer_angle_formula :
    (∀ (m : SwerveModule) (raw : ℝ),
      get_steer_angle m raw = ((raw - m.steer_offset) / m.steer_range) * 2 * π) ∧
    get_steer_angle M0 0 = 0 ∧
    2 * π < get_steer_angle M0 2048 := by
  refine ⟨fun m raw => rfl, by simp [get_steer_angle, M0], ?_⟩
  have h : get_steer_angle M0 2048 = 4 * π := by
    simp only [get_steer_angle, M0]
    norm_num
  rw [h]
  linarith [pi_pos]

/-- C8: after construction and after every `load_config_values` call
(the flag `_apply_range_hack` being `False` in the source), `steer_range`
is unconditionally 1024, hence strictly positive. -/
theorem C8_steer_range_positive :
    (∀ (name : String) (s : Store), (mkSwerveModule name s).steer_range = 1024) ∧
    (∀ (m : SwerveModule) (s : Store), (load_config_values m s).steer_range = 1024) ∧
    (∀ (name : String) (s : Store), 0 < (mkSwerveModule name s).steer_range) ∧
    (∀ (m : SwerveModule) (s : Store), 0 < (load_config_values m s).steer_range) := by
  refine ⟨fun _ _ => rfl, fun _ _ => rfl, ?_, ?_⟩
  · intro name s
    have h : (mkSwerveModule name s).steer_range = 1024 := rfl
    rw [h]
    norm_num
  · intro m s
    have h : (load_config_values m s).steer_range = 1024 := rfl
    rw [h]
    norm_num

/-- C10: the operations other than `set_steer_angle` — namely
`load_config_values`, `save_config_values`, `set_drive_speed` and
`update_smart_dashboard` — leave the transient control state
(`steer_target` and `drive_temp_flipped`) unchanged. -/
theorem C10_frame_transient :
    ∀ (m : SwerveModule) (s : Store) (p tg ar cle : ℝ),
    (load_config_values m s).steer_target = m.steer_target ∧
    (load_config_values m s).drive_temp_flipped = m.drive_temp_flipped ∧
    (save_config_values m s).1.steer_target = m.steer_target ∧
    (save_config_values m s).1.drive_temp_flipped = m.drive_temp_flipped ∧
    (set_drive_speed m p).1.steer_target = m.steer_target ∧
    (set_drive_speed m p).1.drive_temp_flipped = m.drive_temp_flipped ∧
    (update_smart_dashboard m tg ar cle).1.steer_target = m.steer_target ∧
    (update_smart_dashboard m tg ar cle).1.drive_temp_flipped = m.drive_temp_flipped :=
  fun _ _ _ _ _ _ => ⟨rfl, rfl, rfl, rfl, rfl, rfl, rfl, rfl⟩

/-- C4: `set_drive_speed p` sends
`p * (drive_reversed ? -1 : 1) * (drive_temp_flipped ? -1 : 1)` to the
drive controller, with the magnitude unchanged (no clamping); with both
flags set, `set_drive_speed 0.5` sends +0.5. -/
theorem C4_drive_speed_composition :
    (∀ (m : SwerveModule) (p : ℝ),
      (set_drive_speed m p).2 =
        p * (if m.drive_reversed then -1 else 1) *
          (if m.drive_temp_flipped then -1 else 1)) ∧
    (∀ (m : SwerveModule) (p : ℝ), |(set_drive_speed m p).2| = |p|) ∧
    (set_drive_speed M1 0.5).2 = 0.5 := by
  refine ⟨?_, ?_, ?_⟩
  · intro m p
    cases hr : m.drive_reversed <;> cases hf : m.drive_temp_flipped <;>
      simp [set_drive_speed, hr, hf]
  · intro m p
    cases hr : m.drive_reversed <;> cases hf : m.drive_temp_flipped <;>
      simp [set_drive_speed, hr, hf, abs_mul]
  · norm_num [set_drive_speed, M1]

/-! ### Preference-store claims -/

theorem append_ne_of_ne (n : String) {a b : String} (h : a.data ≠ b.data) :
    n ++ a ≠ n ++ b := by
  intro he
  apply h
  have h2 := congrArg String.data he
  simp only [String.data_append] at h2
  exact List.append_cancel_left h2

/-- C5: `save_config_values` followed by a fresh `load_config_values`
against the resulting store restores `steer_offset` and `drive_reversed`
to their values at save time (range-hack mode being disabled in the
source). -/
theorem C5_config_round_trip (m m2 : SwerveModule) (s : Store)
    (h : m2.name = m.name) :
    (load_config_values m2 (save_config_values m s).2).steer_offset =
      m.steer_offset ∧
    (load_config_values m2 (save_config_values m s).2).drive_reversed =
      m.drive_reversed := by
  have hfl : ∀ q, (save_config_values m s).2.floats q =
      if q = m.name ++ "-offset" then some m.steer_offset else s.floats q :=
    fun _ => rfl
  have hbl : ∀ q, (save_config_values m s).2.bools q =
      if q = m.name ++ "-reversed" then some m.drive_reversed else s.bools q :=
    fun _ => rfl
  constructor
  · show getFloat (save_config_values m s).2 (m2.name ++ "-offset") 0 =
      m.steer_offset
    rw [h]
    unfold getFloat
    rw [hfl, if_pos rfl]
    rfl
  · show getBoolean (save_config_values m s).2 (m2.name ++ "-reversed") false =
      m.drive_reversed
    rw [h]
    unfold getBoolean
    rw [hbl, if_pos rfl]
    rfl

theorem C5_config_round_trip_witness :
    M0.name = M0.name ∧
    ((load_config_values M0 (save_config_values M0 emptyStore).2).steer_offset =
        M0.steer_offset ∧
      (load_config_values M0 (save_config_values M0 emptyStore).2).drive_reversed =
        M0.drive_reversed) :=
  ⟨rfl, C5_config_round_trip M0 M0 emptyStore rfl⟩

/-- C9: with range-hack mode disabled, `save_config_values` writes
exactly the keys `name ++ "-offset"` (a float) and `name ++ "-reversed"`
(a boolean); with it enabled it additionally writes `name ++ "-min"` and
`name ++ "-max"`; it never writes `name ++ "-steer-reversed"`, and every
other store entry is left unchanged. -/
theorem C9_save_frame (m : SwerveModule) (s : Store) (k : String) :
    (save_config_values m s).2.floats (m.name ++ "-offset") =
      some m.steer_offset ∧
    (save_config_values m s).2.bools (m.name ++ "-reversed") =
      some m.drive_reversed ∧
    (k ≠ m.name ++ "-offset" →
      (save_config_values m s).2.floats k = s.floats k) ∧
    (k ≠ m.name ++ "-reversed" →
      (save_config_values m s).2.bools k = s.bools k) ∧
    (save_config_values m s).2.bools (m.name ++ "-steer-reversed") =
      s.bools (m.name ++ "-steer-reversed") ∧
    (save_config_values_hack true m s).2.floats (m.name ++ "-min") =
      some m.steer_min ∧
    (save_config_values_hack true m s).2.floats (m.name ++ "-max") =
      some m.steer_max ∧
    (k ≠ m.name ++ "-offset" → k ≠ m.name ++ "-min" → k ≠ m.name ++ "-max" →
      (save_config_values_hack true m s).2.floats k = s.floats k) ∧
    (k ≠ m.name ++ "-reversed" →
      (save_config_values_hack true m s).2.bools k = s.bools k) ∧
    (save_config_values_hack true m s).2.bools (m.name ++ "-steer-reversed") =
      s.bools (m.name ++ "-steer-reversed") := by
  have hfl : ∀ q, (save_config_values m s).2.floats q =
      if q = m.name ++ "-offset" then some m.steer_offset else s.floats q :=
    fun _ => rfl
  have hbl : ∀ q, (save_config_values m s).2.bools q =
      if q = m.name ++ "-reversed" then some m.drive_reversed else s.bools q :=
    fun _ => rfl
  have hfl2 : ∀ q, (save_config_values_hack true m s).2.floats q =
      if q = m.name ++ "-max" then some m.steer_max
      else if q = m.name ++ "-min" then some m.steer_min
      else if q = m.name ++ "-offset" then some m.steer_offset
      else s.floats q := fun _ => rfl
  have hbl2 : ∀ q, (save_config_values_hack true m s).2.bools q =
      if q = m.name ++ "-reversed" then some m.drive_reversed else s.bools q :=
    fun _ => rfl
  have hsr : m.name ++ "-steer-reversed" ≠ m.name ++ "-reversed" :=
    append_ne_of_ne _ (by decide)
  have hminmax : m.name ++ "-min" ≠ m.name ++ "-max" :=
    append_ne_of_ne _ (by decide)
  have hmaxoff : m.name ++ "-max" ≠ m.name ++ "-offset" :=
    append_ne_of_ne _ (by decide)
  have hminoff : m.name ++ "-min" ≠ m.name ++ "-offset" :=
    append_ne_of_ne _ (by decide)
  refine ⟨?_, ?_, ?_, ?_, ?_, ?_, ?_, ?_, ?_, ?_⟩
  · rw [hfl, if_pos rfl]
  · rw [hbl, if_pos rfl]
  · intro hk
    rw [hfl, if_neg hk]
  · intro hk
    rw [hbl, if_neg hk]
  · rw [hbl, if_neg hsr]
  · rw [hfl2, if_neg hminmax, if_pos rfl]
  · rw [hfl2, if_pos rfl]
  · intro h1 h2 h3
    rw [hfl2, if_neg h3, if_neg h2, if_neg h1]
  · intro hk
    rw [hbl2, if_neg hk]
  · rw [hbl2, if_neg hsr]

theorem C9_save_frame_witness :
    (save_config_values M0 emptyStore).2.floats "zz" = emptyStore.floats "zz" ∧
    (save_config_values M0 emptyStore).2.bools "zz" = emptyStore.bools "zz" ∧
    (save_config_values_hack true M0 emptyStore).2.floats "zz" =
      emptyStore.floats "zz" :=
  ⟨(C9_save_frame M0 emptyStore "zz").2.2.1 (by decide),
   (C9_save_frame M0 emptyStore "zz").2.2.2.1 (by decide),
   (C9_save_frame M0 emptyStore "zz").2.2.2.2.2.2.2.1 (by decide) (by decide)
     (by decide)⟩

/-! ### The shortest-path algorithm -/

theorem flipTarget_bound (c a : ℝ) (h : |a - c| ≤ 3 * π / 2 + 0.0005) :
    |(flipTarget c a).1 - c| ≤ π / 2 + 0.0005 := by
  by_cases hc : |a - c| - π / 2 > 0.0005
  · by_cases hac : a > c
    · rw [flipTarget_of_far_gt c a hc hac]
      have habs : |a - c| = a - c := abs_of_pos (sub_pos.mpr hac)
      rw [habs] at h hc
      exact abs_le.mpr ⟨by linarith, by linarith⟩
    · rw [flipTarget_of_far_le c a hc hac]
      push_neg at hac
      have habs : |a - c| = -(a - c) := abs_of_nonpos (by linarith)
      rw [habs] at h hc
      exact abs_le.mpr ⟨by linarith, by linarith⟩
  · rw [flipTarget_of_near c a hc]
    push_neg at hc
    show |a - c| ≤ π / 2 + 0.0005
    linarith

theorem unwrapTarget_bound (c a : ℝ) (h : |a - c| ≤ 7 * π / 2 + 0.0005) :
    |unwrapTarget c a - c| ≤ 3 * π / 2 + 0.0005 := by
  by_cases hc : |a - c| - π > 0.0005
  · by_cases hac : a > c
    · rw [unwrapTarget_of_far_gt c a hc hac]
      have habs : |a - c| = a - c := abs_of_pos (sub_pos.mpr hac)
      rw [habs] at h hc
      exact abs_le.mpr ⟨by linarith [pi_pos], by linarith⟩
    · rw [unwrapTarget_of_far_le c a hc hac]
      push_neg at hac
      have habs : |a - c| = -(a - c) := abs_of_nonpos (by linarith)
      rw [habs] at h hc
      exact abs_le.mpr ⟨by linarith, by linarith [pi_pos]⟩
  · rw [unwrapTarget_of_not_far c a hc]
    push_neg at hc
    linarith [pi_pos]

/-- C1 (amended): after `set_steer_angle angle_radians`, the stored
`steer_target` differs from the current unwrapped angle read at entry by
at most `π/2 + 0.0005`, provided the multi-turn-adjusted initial distance
`|angle_radians + n_rotations * 2π - current_angle|` is at most
`7π/2 + 0.0005`.  (The original claim, without this proviso, fails: the
unwrap step runs only once, see the counterexample.) -/
theorem C1_amended_shortest_path_bound (m : SwerveModule) (raw θ : ℝ)
    (h : |θ + (truncR ((raw - m.steer_offset) / m.steer_range) : ℝ) * 2 * π -
        get_steer_angle m raw| ≤ 7 * π / 2 + 0.0005) :
    |(set_steer_angle m raw θ).1.steer_target - get_steer_angle m raw| ≤
      π / 2 + 0.0005 := by
  rw [set_steer_angle_target]
  exact flipTarget_bound _ _ (unwrapTarget_bound _ _ h)

theorem C1_amended_witness :
    |(0 : ℝ) + (truncR ((0 - M0.steer_offset) / M0.steer_range) : ℝ) * 2 * π -
        get_steer_angle M0 0| ≤ 7 * π / 2 + 0.0005 ∧
    |(set_steer_angle M0 0 0).1.steer_target - get_steer_angle M0 0| ≤
      π / 2 + 0.0005 := by
  have htr0 : truncR ((0 - M0.steer_offset) / M0.steer_range) = 0 := by
    norm_num [truncR, M0]
  have hc0 : get_steer_angle M0 0 = 0 := by
    norm_num [get_steer_angle, M0]
  have h : |(0 : ℝ) + (truncR ((0 - M0.steer_offset) / M0.steer_range) : ℝ) *
      2 * π - get_steer_angle M0 0| ≤ 7 * π / 2 + 0.0005 := by
    rw [htr0, hc0]
    norm_num
    positivity
  exact ⟨h, C1_amended_shortest_path_bound M0 0 0 h⟩

/-- C1 counterexample: with the nominal calibration (offset 0, range
1024), a raw sensor reading of -1023 (current unwrapped angle about
-1.998π, inside `[-2π, 2π]`) and the in-range input `2π`, the final
`steer_target` is `-π`, at distance `511π/512 ≈ 3.135 > π/2 + 0.0005`
from the current angle: the claimed bound is violated. -/
theorem C1_counterexample :
    π / 2 + 0.0005 <
      |(set_steer_angle M0 (-1023) (2 * π)).1.steer_target -
        get_steer_angle M0 (-1023)| := by
  have hc : get_steer_angle M0 (-1023) = -(1023 / 512) * π := by
    simp only [get_steer_angle, M0]
    ring
  have htr : truncR ((-1023 - M0.steer_offset) / M0.steer_range) = 0 := by
    have hx : ((-1023 : ℝ) - M0.steer_offset) / M0.steer_range =
        -(1023 / 1024) := by
      norm_num [M0]
    rw [hx]
    unfold truncR
    rw [if_neg (by norm_num)]
    rw [Int.ceil_eq_zero_iff]
    constructor <;> norm_num
  rw [set_steer_angle_target, htr, hc]
  rw [show (2 * π + ((0 : ℤ) : ℝ) * 2 * π) = 2 * π by push_cast; ring]
  have hu : unwrapTarget (-(1023 / 512) * π) (2 * π) = 0 := by
    have h1 : |2 * π - -(1023 / 512) * π| - π > 0.0005 := by
      rw [show |2 * π - -(1023 / 512) * π| = (2047 / 512) * π by
        rw [abs_of_pos (by linarith [pi_pos])]; ring]
      linarith [pi_gt_three]
    rw [unwrapTarget_of_far_gt _ _ h1 (by linarith [pi_pos])]
    ring
  rw [hu]
  have h2 : |(0 : ℝ) - -(1023 / 512) * π| - π / 2 > 0.0005 := by
    rw [show |(0 : ℝ) - -(1023 / 512) * π| = (1023 / 512) * π by
      rw [abs_of_pos (by linarith [pi_pos])]; ring]
    linarith [pi_gt_three]
  rw [flipTarget_of_far_gt _ _ h2 (by linarith [pi_pos])]
  rw [show |(0 : ℝ) - π - -(1023 / 512) * π| = (511 / 512) * π by
    rw [show ((0 : ℝ) - π - -(1023 / 512) * π) = (511 / 512) * π by ring]
    rw [abs_of_pos (by linarith [pi_pos])]]
  linarith [pi_gt_three]

theorem flipTarget_flag_iff (c a : ℝ) :
    (flipTarget c a).2 = true ↔ |a - c| > π / 2 + 0.0005 := by
  by_cases hc : |a - c| - π / 2 > 0.0005
  · by_cases hac : a > c
    · rw [flipTarget_of_far_gt c a hc hac]
      simp only [true_iff]
      linarith
    · rw [flipTarget_of_far_le c a hc hac]
      simp only [true_iff]
      linarith
  · rw [flipTarget_of_near c a hc]
    push_neg at hc
    simp only [Bool.false_eq_true, false_iff, not_lt]
    linarith

theorem flipTarget_val_of_flag (c a : ℝ) (h : (flipTarget c a).2 = true) :
    (flipTarget c a).1 = if a > c then a - π else a + π := by
  by_cases hc : |a - c| - π / 2 > 0.0005
  · by_cases hac : a > c
    · rw [flipTarget_of_far_gt c a hc hac, if_pos hac]
    · rw [flipTarget_of_far_le c a hc hac, if_neg hac]
  · rw [flipTarget_of_near c a hc] at h
    exact absurd h (by simp)

/-- C2: on every call to `set_steer_angle` (whatever the previous value
of `drive_temp_flipped` in `m` was), the new `drive_temp_flipped` is true
iff the post-unwrap, pre-flip distance strictly exceeds `π/2 + 0.0005`;
and when it is true, the stored `steer_target` is the pre-flip
`adjusted_target` shifted by exactly `π` toward `current_angle`. -/
theorem C2_flip_consistency (m : SwerveModule) (raw θ : ℝ) :
    ((set_steer_angle m raw θ).1.drive_temp_flipped = true ↔
      |unwrapTarget (get_steer_angle m raw)
          (θ + (truncR ((raw - m.steer_offset) / m.steer_range) : ℝ) * 2 * π) -
        get_steer_angle m raw| > π / 2 + 0.0005) ∧
    ((set_steer_angle m raw θ).1.drive_temp_flipped = true →
      (set_steer_angle m raw θ).1.steer_target =
        (if unwrapTarget (get_steer_angle m raw)
            (θ + (truncR ((raw - m.steer_offset) / m.steer_range) : ℝ) * 2 * π) >
            get_steer_angle m raw
         then unwrapTarget (get_steer_angle m raw)
            (θ + (truncR ((raw - m.steer_offset) / m.steer_range) : ℝ) * 2 * π) - π
         else unwrapTarget (get_steer_angle m raw)
            (θ + (truncR ((raw - m.steer_offset) / m.steer_range) : ℝ) * 2 * π) + π)) := by
  constructor
  · rw [set_steer_angle_flipped]
    exact flipTarget_flag_iff _ _
  · intro h
    rw [set_steer_angle_flipped] at h
    rw [set_steer_angle_target]
    exact flipTarget_val_of_flag _ _ h

theorem C2_flip_consistency_witness :
    (set_steer_angle M0 0 π).1.drive_temp_flipped = true ∧
    (set_steer_angle M0 0 π).1.steer_target =
      (if unwrapTarget (get_steer_angle M0 0)
          (π + (truncR ((0 - M0.steer_offset) / M0.steer_range) : ℝ) * 2 * π) >
          get_steer_angle M0 0
       then unwrapTarget (get_steer_angle M0 0)
          (π + (truncR ((0 - M0.steer_offset) / M0.steer_range) : ℝ) * 2 * π) - π
       else unwrapTarget (get_steer_angle M0 0)
          (π + (truncR ((0 - M0.steer_offset) / M0.steer_range) : ℝ) * 2 * π) + π) := by
  have htr0 : truncR ((0 - M0.steer_offset) / M0.steer_range) = 0 := by
    norm_num [truncR, M0]
  have hc0 : get_steer_angle M0 0 = 0 := by
    norm_num [get_steer_angle, M0]
  have hflag : (set_steer_angle M0 0 π).1.drive_temp_flipped = true := by
    rw [(C2_flip_consistency M0 0 π).1, htr0, hc0]
    rw [show (π + ((0 : ℤ) : ℝ) * 2 * π) = π by push_cast; ring]
    have h1 : ¬ |π - (0 : ℝ)| - π > 0.0005 := by
      rw [sub_zero, abs_of_nonneg pi_pos.le]
      norm_num
    rw [unwrapTarget_of_not_far _ _ h1, sub_zero, abs_of_nonneg pi_pos.le]
    linarith [pi_gt_three]
  exact ⟨hflag, (C2_flip_consistency M0 0 π).2 hflag⟩

/-- C3: the native-unit setpoint issued by `set_steer_angle` is always
`steer_target * 512 / π + steer_offset` — a fixed scale independent of
`steer_range` — and concretely, with range 1024, offset 0 and raw sensor
0, `set_steer_angle (π/4)` issues the native setpoint 128. -/
theorem C3_native_setpoint :
    (∀ (m : SwerveModule) (raw θ : ℝ),
      (set_steer_angle m raw θ).2 =
        (set_steer_angle m raw θ).1.steer_target * 512 / π + m.steer_offset) ∧
    (set_steer_angle M0 0 (π / 4)).2 = 128 := by
  refine ⟨fun m raw θ => rfl, ?_⟩
  have htr0 : truncR ((0 - M0.steer_offset) / M0.steer_range) = 0 := by
    norm_num [truncR, M0]
  have hc0 : get_steer_angle M0 0 = 0 := by
    norm_num [get_steer_angle, M0]
  have ht : (set_steer_angle M0 0 (π / 4)).1.steer_target = π / 4 := by
    rw [set_steer_angle_target, htr0, hc0]
    rw [show (π / 4 + ((0 : ℤ) : ℝ) * 2 * π) = π / 4 by push_cast; ring]
    have h1 : ¬ |π / 4 - (0 : ℝ)| - π > 0.0005 := by
      rw [sub_zero, abs_of_nonneg (by positivity), not_lt]
      linarith [pi_pos]
    have h2 : ¬ |π / 4 - (0 : ℝ)| - π / 2 > 0.0005 := by
      rw [sub_zero, abs_of_nonneg (by positivity), not_lt]
      linarith [pi_pos]
    rw [unwrapTarget_of_not_far _ _ h1, flipTarget_of_near _ _ h2]
  rw [set_steer_angle_native, ht, show M0.steer_offset = (0 : ℝ) from rfl,
    add_zero, div_eq_iff pi_ne_zero]
  ring
